import Mathlib

/-!
Shallow embedding of the `gasrs` rendering harness (src/view.rs, src/main.rs).

The program is a minimal cross-platform renderer: a `View` owns a GL context,
a texture cache (`HashMap<String, glow::Texture>`) and stored dimensions.
GL side effects are modelled as an explicit trace of `GlCall`s, and the
fallible external collaborators (network fetch, image codec, GL texture
creation, platform window/context creation) are modelled as oracles passed
in as an environment.  A Rust `panic!`/`expect`/`unwrap` is modelled as a
fatal error value carrying the panic message; nothing catches it, matching
the process abort in the source.

Floating point (`f32`/`f64`) is modelled with real numbers.
-/

namespace Gasrs

/-- GPU texture handle (`glow::Texture`), modelled as an opaque id. -/
abbrev Texture := Nat

-- OpenGL constants used by the program, with their values from the glow crate.
def TEXTURE_2D : Nat := 0x0DE1
def COLOR_BUFFER_BIT : Nat := 0x4000
def LINEAR : Nat := 0x2601
def CLAMP_TO_EDGE : Nat := 0x812F
def TEXTURE_MIN_FILTER : Nat := 0x2801
def TEXTURE_MAG_FILTER : Nat := 0x2800
def TEXTURE_WRAP_S : Nat := 0x2802
def TEXTURE_WRAP_T : Nat := 0x2803
def RGBA : Nat := 0x1908
def UNSIGNED_BYTE : Nat := 0x1401

/-- A call issued through the glow GL context (the function-pointer table).
Each constructor mirrors one `self.gl.…` call made in src/view.rs. -/
inductive GlCall where
  | create_texture (tex : Texture)
  | bind_texture (target : Nat) (tex : Option Texture)
  | tex_parameter_i32 (target : Nat) (pname : Nat) (param : Int)
  | tex_image_2d (target : Nat) (level : Int) (internal_format : Int)
      (width : Int) (height : Int) (border : Int) (format : Nat)
      (ty : Nat) (data : List Nat)
  | clear_color (r g b a : ℝ)
  | clear (mask : Nat)
  | viewport (x y w h : Int)

/-- The texture cache `HashMap<String, glow::Texture>` modelled as an
association list (first match wins; keys are unique because entries are
only ever inserted for absent keys). -/
abbrev TexMap := List (String × Texture)

/-- `HashMap::get` on the texture cache. -/
def lookupTex : TexMap → String → Option Texture
  | [], _ => none
  | (k, t) :: rest, key => if k = key then some t else lookupTex rest key

/-- `HashMap::contains_key` on the texture cache. -/
def containsKey (m : TexMap) (key : String) : Bool :=
  (lookupTex m key).isSome

/-- `HashMap::insert` on the texture cache: replaces the value when the key
is present, otherwise adds a new entry. -/
def insertTex (m : TexMap) (key : String) (t : Texture) : TexMap :=
  if (lookupTex m key).isSome then
    m.map (fun p => if p.1 = key then (key, t) else p)
  else
    m ++ [(key, t)]

/-- The physical backing store of the view: on native, the OS window whose
inner size `View::new` sets and `View::resize` requests via
`request_inner_size`; on web, the canvas element whose `width`/`height`
attributes are assigned.  The platform is modelled as honouring the
requested size. -/
structure Window where
  innerWidth : Nat
  innerHeight : Nat
deriving DecidableEq

/-- The `View` struct of src/view.rs: texture cache plus stored dimensions,
together with the platform backing store it owns. -/
structure View where
  textures : TexMap
  width : Nat
  height : Nat
  window : Window

/-- Decoded image handed back by the external image codec
(`image::DynamicImage`), already viewed through `to_rgba8`. -/
structure DynamicImage where
  width : Nat
  height : Nat
  rgba8 : List Nat

/-- Oracle for the external collaborators used by `load_texture`:
`reqwest::get` (fetch), `Response::bytes`, `image::load_from_memory`
(decode) and `gl.create_texture`.  `none` models the collaborator
failing. -/
structure Env where
  get : String → Option Nat
  bytes : Nat → Option (List Nat)
  load_from_memory : List Nat → Option DynamicImage
  create_texture : Option Texture

/-- Oracle for the fallible steps of native `View::new`: event-loop
creation, display/window building, context creation, surface creation and
`make_current`.  `false` models the step failing. -/
structure NewEnv where
  new_event_loop : Bool
  display_build : Bool
  window_present : Bool
  raw_window_handle : Bool
  create_context : Bool
  create_window_surface : Bool
  make_current : Bool

/-- The winit event loop handed back by `View::new`; it carries no data
relevant to the embedding. -/
abbrev EventLoop := Unit

/-- Panic message of `Option::unwrap` on `None`. -/
def unwrapOptionMsg : String := "called Option::unwrap() on a None value"

/-- Panic message of `Result::unwrap` on `Err`. -/
def unwrapResultMsg : String := "called Result::unwrap() on an Err value"

/-- Result of an operation that can `panic!`: the view state at the moment
the operation returns (or panics), the GL calls it issued, and the panic
message when it aborted the process. -/
structure LoadResult where
  view : View
  calls : List GlCall
  fatal : Option String

namespace View

/-- `View::new` (native): creates the event loop, window, GL context and
surface, makes the context current, loads the function pointers and sets
the initial viewport.  Every failure is a panic (`expect`/`unwrap`),
modelled as `Except.error` with the panic message.  The window is created
with inner size `(width, height)`. -/
def new (env : NewEnv) (width height : Nat) :
    Except String (View × EventLoop × List GlCall) :=
  if ¬ env.new_event_loop then .error "Failed to create EventLoop" else
  if ¬ env.display_build then .error unwrapResultMsg else
  if ¬ env.window_present then .error unwrapOptionMsg else
  if ¬ env.raw_window_handle then .error unwrapResultMsg else
  if ¬ env.create_context then .error unwrapResultMsg else
  if width = 0 then .error unwrapOptionMsg else
  if height = 0 then .error unwrapOptionMsg else
  if ¬ env.create_window_surface then .error unwrapResultMsg else
  if ¬ env.make_current then .error unwrapResultMsg else
  .ok ({ textures := [], width := width, height := height,
         window := { innerWidth := width, innerHeight := height } },
       (),
       [GlCall.viewport 0 0 (Int.ofNat width) (Int.ofNat height)])

/-- `View::resize`: stores the new dimensions and requests the platform
resize the backing store (window inner-size request on native, canvas
attribute assignment on web). -/
def resize (v : View) (new_width new_height : Nat) : View :=
  { v with width := new_width, height := new_height,
           window := { innerWidth := new_width, innerHeight := new_height } }

/-- `View::decode_image`: converts the decoded image to RGBA8 and returns
`(width, height, raw pixel data)`. -/
def decode_image (img : DynamicImage) : Nat × Nat × List Nat :=
  (img.width, img.height, img.rgba8)

/-- `View::upload_texture`: creates a GL texture (panicking with
"Failed to create texture" when creation fails), binds it, sets linear
min/mag filtering and clamp-to-edge wrapping, and uploads the pixels with
`tex_image_2d`. -/
def upload_texture (env : Env) (_v : View) (width height : Nat)
    (data : List Nat) : Except String (Texture × List GlCall) :=
  match env.create_texture with
  | none => .error "Failed to create texture"
  | some texture =>
      .ok (texture,
        [GlCall.create_texture texture,
         GlCall.bind_texture TEXTURE_2D (some texture),
         GlCall.tex_parameter_i32 TEXTURE_2D TEXTURE_MIN_FILTER (Int.ofNat LINEAR),
         GlCall.tex_parameter_i32 TEXTURE_2D TEXTURE_MAG_FILTER (Int.ofNat LINEAR),
         GlCall.tex_parameter_i32 TEXTURE_2D TEXTURE_WRAP_S (Int.ofNat CLAMP_TO_EDGE),
         GlCall.tex_parameter_i32 TEXTURE_2D TEXTURE_WRAP_T (Int.ofNat CLAMP_TO_EDGE),
         GlCall.tex_image_2d TEXTURE_2D 0 (Int.ofNat RGBA) (Int.ofNat width)
           (Int.ofNat height) 0 RGBA UNSIGNED_BYTE data])

/-- `View::load_texture` (native): returns immediately when the path is
already cached; otherwise fetches the bytes, decodes them, uploads the
texture and inserts the handle into the cache.  Each failing step panics
with its `expect` message; the cache insertion is the last statement, so a
panic leaves the view untouched. -/
def load_texture (env : Env) (v : View) (path : String) : LoadResult :=
  if containsKey v.textures path then
    { view := v, calls := [], fatal := none }
  else
    match env.get path with
    | none => { view := v, calls := [], fatal := some "Failed to fetch image" }
    | some response =>
      match env.bytes response with
      | none => { view := v, calls := [], fatal := some "Failed to read image bytes" }
      | some bs =>
        match env.load_from_memory bs with
        | none => { view := v, calls := [], fatal := some "Failed to decode image" }
        | some img =>
          let whd := decode_image img
          match upload_texture env v whd.1 whd.2.1 whd.2.2 with
          | .error msg => { view := v, calls := [], fatal := some msg }
          | .ok (texture, calls) =>
            { view := { v with textures := insertTex v.textures path texture },
              calls := calls, fatal := none }

/-- `View::bind_texture`: when the path is cached, binds the cached handle
as the active 2D texture; a miss issues no GL call at all.  The receiver is
`&self`, so the view is returned unchanged. -/
def bind_texture (v : View) (path : String) : View × List GlCall :=
  (v,
   match lookupTex v.textures path with
   | some texture => [GlCall.bind_texture TEXTURE_2D (some texture)]
   | none => [])

/-- `View::render_frame`: converts elapsed milliseconds to seconds,
computes the animated clear color, sets it and clears the color buffer.
The receiver is `&self`, so the view is returned unchanged. -/
noncomputable def render_frame (v : View) (time_ms : ℝ) : View × List GlCall :=
  let time_sec := time_ms / 1000
  let r := Real.sin time_sec * 0.5 + 0.5
  let g := Real.cos time_sec * 0.5 + 0.5
  let b : ℝ := 0.5
  (v, [GlCall.clear_color r g b 1, GlCall.clear COLOR_BUFFER_BIT])

end View

/-- The slice of GL server state the issued calls affect: the current clear
color, the currently bound 2D texture, and the log of buffer clears
performed (mask paired with the clear color in force). -/
structure GlState where
  clearColor : ℝ × ℝ × ℝ × ℝ
  boundTexture : Option Texture
  cleared : List (Nat × (ℝ × ℝ × ℝ × ℝ))

/-- Effect of one GL call on the tracked GL state. -/
def applyCall (s : GlState) : GlCall → GlState
  | .clear_color r g b a => { s with clearColor := (r, g, b, a) }
  | .clear mask => { s with cleared := s.cleared ++ [(mask, s.clearColor)] }
  | .bind_texture _ tex => { s with boundTexture := tex }
  | _ => s

/-- Run a trace of GL calls from a GL state. -/
def run (s : GlState) (calls : List GlCall) : GlState :=
  calls.foldl applyCall s

/-- Number of GPU uploads (`tex_image_2d` calls) in a trace. -/
def countUploads (calls : List GlCall) : Nat :=
  (calls.filter fun c => match c with
    | .tex_image_2d .. => true
    | _ => false).length

/-- Number of clear-related calls (`clear` or `clear_color`) in a trace;
`render_frame` issues exactly these, so a trace with none of them rendered
no frame. -/
def countClears (calls : List GlCall) : Nat :=
  (calls.filter fun c => match c with
    | .clear _ => true
    | .clear_color .. => true
    | _ => false).length

/-- The image URL loaded by `setup` in src/main.rs. -/
def creditCard : String := "https://m.media-amazon.com/images/G/01/credit/CBCC/acq-marketing/maple/Q123-1103_US_CBCC_ACQ_Maple_Thumbnail_126x80._CB613265021_.png"

/-- `setup` (src/main.rs): loads the one texture and binds it. -/
def setup (env : Env) (v : View) : LoadResult :=
  let r := View.load_texture env v creditCard
  match r.fatal with
  | some _ => r
  | none =>
    let b := View.bind_texture r.view creditCard
    { view := b.1, calls := r.calls ++ b.2, fatal := none }

/-- Native `main` (src/main.rs): creates the view with `View::new(800, 600)`,
awaits `setup`, then defines the `MyApp` application handler — but never
starts the event loop (there is no `run_app` call), so the function
returns right after setup.  The result is the final view and the complete
GL trace the program issues. -/
def main (ne : NewEnv) (env : Env) : Except String (View × List GlCall) :=
  match View.new ne 800 600 with
  | .error msg => .error msg
  | .ok (view, _evloop, calls0) =>
    let s := setup env view
    match s.fatal with
    | some msg => .error msg
    | none => .ok (s.view, calls0 ++ s.calls)

/-- One mutation-relevant operation on a `View`, for stating cache
invariants across the whole API surface. -/
inductive Op where
  | load (env : Env) (path : String)
  | bind (path : String)
  | doResize (w h : Nat)
  | render (t : ℝ)

/-- State transition of a `View` under one operation. -/
noncomputable def step (v : View) : Op → View
  | .load env p => (View.load_texture env v p).view
  | .bind p => (View.bind_texture v p).1
  | .doResize w h => View.resize v w h
  | .render t => (View.render_frame v t).1

/-! ### Theorems about the embedded program -/

/-- C1: for every elapsed time `t` (in milliseconds) and every `View`,
`render_frame t` issues exactly a `clear_color` call with
red `= sin(t/1000)*0.5+0.5`, green `= cos(t/1000)*0.5+0.5`, blue `= 0.5`,
alpha `= 1.0`, followed by a clear of the color buffer; running the trace
from any GL state sets that clear color and records one clear of the color
buffer with it. -/
theorem render_frame_clear_color (v : View) (t : ℝ) (s : GlState) :
    (View.render_frame v t).2 =
      [GlCall.clear_color (Real.sin (t / 1000) * 0.5 + 0.5)
         (Real.cos (t / 1000) * 0.5 + 0.5) 0.5 1,
       GlCall.clear COLOR_BUFFER_BIT] ∧
    run s (View.render_frame v t).2 =
      { clearColor := (Real.sin (t / 1000) * 0.5 + 0.5,
                       Real.cos (t / 1000) * 0.5 + 0.5, 0.5, 1),
        boundTexture := s.boundTexture,
        cleared := s.cleared ++ [(COLOR_BUFFER_BIT,
          (Real.sin (t / 1000) * 0.5 + 0.5,
           Real.cos (t / 1000) * 0.5 + 0.5, 0.5, 1))] } := by
  exact ⟨rfl, rfl⟩

/-- C7: the clear color computed by `render_frame` is periodic with period
`2π·1000` milliseconds: `render_frame (t + 2π·1000)` produces exactly the
same result as `render_frame t`. -/
theorem render_frame_periodic (v : View) (t : ℝ) :
    View.render_frame v (t + 2 * Real.pi * 1000) = View.render_frame v t := by
  have h : (t + 2 * Real.pi * 1000) / 1000 = t / 1000 + 2 * Real.pi := by ring
  simp only [View.render_frame, h, Real.sin_add_two_pi, Real.cos_add_two_pi]

/-- C4: `resize (w, h)` updates the view's stored width and height to
exactly `(w, h)` and requests the platform resize the backing store to that
size, so the backing store's reported size matches `(w, h)`. -/
theorem resize_updates_dimensions (v : View) (w h : Nat) :
    (View.resize v w h).width = w ∧ (View.resize v w h).height = h ∧
    (View.resize v w h).window.innerWidth = w ∧
    (View.resize v w h).window.innerHeight = h ∧
    (View.resize v w h).textures = v.textures := by
  exact ⟨rfl, rfl, rfl, rfl, rfl⟩

/-- C10: `bind_texture` and `render_frame` never modify any view state
(they take `&self` in the source and only issue GL calls): for every view,
identifier and elapsed time, the view they return — width, height and the
whole texture cache included — is the view they were given. -/
theorem bind_and_render_preserve_view (v : View) (id : String) (t : ℝ) :
    (View.bind_texture v id).1 = v ∧ (View.render_frame v t).1 = v := by
  exact ⟨rfl, rfl⟩

/-- C3: if `id` is present in the texture cache, `bind_texture id` issues
exactly one bind of the cached handle to the 2D texture target; if `id` is
absent, it issues no GL call at all, raising no error and leaving the bound
texture state (and all GL state) unchanged. -/
theorem bind_texture_hit_miss (v : View) (id : String) (s : GlState) :
    (∀ tex, lookupTex v.textures id = some tex →
        (View.bind_texture v id).2 = [GlCall.bind_texture TEXTURE_2D (some tex)] ∧
        run s (View.bind_texture v id).2 = { s with boundTexture := some tex })
  ∧ (lookupTex v.textures id = none →
        (View.bind_texture v id).2 = [] ∧ run s (View.bind_texture v id).2 = s) := by
  constructor
  · intro tex htex
    simp [View.bind_texture, htex, run, applyCall]
  · intro hmiss
    simp [View.bind_texture, hmiss, run]

/-- A view with one cached texture, used as a concrete input. -/
def sampleView : View :=
  { textures := [("img1", 5)], width := 800, height := 600,
    window := { innerWidth := 800, innerHeight := 600 } }

/-- A concrete GL state used as a concrete input. -/
def sampleGlState : GlState :=
  { clearColor := (0, 0, 0, 0), boundTexture := none, cleared := [] }

/-- Witness for C3 at a concrete view: binding the cached `"img1"` binds
handle 5; binding the absent `"missing"` leaves the GL state unchanged. -/
theorem bind_texture_hit_miss_witness :
    (run sampleGlState (View.bind_texture sampleView "img1").2 =
      { sampleGlState with boundTexture := some 5 }) ∧
    (run sampleGlState (View.bind_texture sampleView "missing").2 = sampleGlState) :=
  ⟨((bind_texture_hit_miss sampleView "img1" sampleGlState).1 5 (by decide)).2,
   ((bind_texture_hit_miss sampleView "missing" sampleGlState).2 (by decide)).2⟩

/-! ### Cache lemmas -/

/-- A lookup that succeeds in `m` is unchanged by appending entries. -/
theorem lookupTex_append_left (m l : TexMap) (id : String) (tex : Texture)
    (h : lookupTex m id = some tex) : lookupTex (m ++ l) id = some tex := by
  induction m with
  | nil => simp [lookupTex] at h
  | cons p rest ih =>
    by_cases hk : p.1 = id
    · simpa [lookupTex, hk] using h
    · simp [lookupTex, hk] at h ⊢
      exact ih h

/-- A lookup that fails in `m` falls through to the appended entries. -/
theorem lookupTex_append_right (m l : TexMap) (id : String)
    (h : lookupTex m id = none) : lookupTex (m ++ l) id = lookupTex l id := by
  induction m with
  | nil => rfl
  | cons p rest ih =>
    by_cases hk : p.1 = id
    · simp [lookupTex, hk] at h
    · simp [lookupTex, hk] at h ⊢
      exact ih h

/-- Inserting an absent key appends a new entry. -/
theorem insertTex_not_cached (m : TexMap) (key : String) (t : Texture)
    (h : containsKey m key = false) : insertTex m key t = m ++ [(key, t)] := by
  unfold containsKey at h
  simp [insertTex, h]

/-- After any `load_texture` call, every identifier that was cached before
is still cached with the same handle. -/
theorem lookupTex_load_texture (env : Env) (v : View) (p id : String)
    (tex : Texture) (h : lookupTex v.textures id = some tex) :
    lookupTex (View.load_texture env v p).view.textures id = some tex := by
  by_cases hc : containsKey v.textures p
  · simpa [View.load_texture, hc] using h
  · have hcf : containsKey v.textures p = false := by
      simpa using hc
    cases hg : env.get p with
    | none => simpa [View.load_texture, hcf, hg] using h
    | some response =>
      cases hb : env.bytes response with
      | none => simpa [View.load_texture, hcf, hg, hb] using h
      | some bs =>
        cases hm : env.load_from_memory bs with
        | none => simpa [View.load_texture, hcf, hg, hb, hm] using h
        | some img =>
          cases hcr : env.create_texture with
          | none =>
            simpa [View.load_texture, View.upload_texture, hcf, hg, hb, hm, hcr] using h
          | some texture =>
            simp only [View.load_texture, View.upload_texture, hcf, hg, hb, hm, hcr]
            simp only [Bool.false_eq_true, if_false]
            rw [insertTex_not_cached _ _ _ hcf]
            exact lookupTex_append_left _ _ _ _ h

/-- C6: the texture cache is monotonic per identifier: once an entry exists
for an identifier, no operation — `load_texture` (with any environment and
any path), `bind_texture`, `resize` or `render_frame` — removes it or
changes its stored GPU handle. -/
theorem cache_monotonic (v : View) (op : Op) (id : String) (tex : Texture)
    (h : lookupTex v.textures id = some tex) :
    lookupTex (step v op).textures id = some tex := by
  cases op with
  | load env p => exact lookupTex_load_texture env v p id tex h
  | bind p => exact h
  | doResize w hh => exact h
  | render t => exact h

/-- Witness for C6 at a concrete view: the entry for `"img1"` survives a
resize unchanged. -/
theorem cache_monotonic_witness :
    lookupTex (step sampleView (Op.doResize 1024 768)).textures "img1" = some 5 :=
  cache_monotonic sampleView (Op.doResize 1024 768) "img1" 5 (by decide)

/-- C9: `load_texture` is atomic with respect to the cache on failure: the
cache insertion is the last step, after fetch, decode and upload have all
succeeded, so whenever the call panics the view — its texture cache
included — is exactly as it was before the call. -/
theorem load_texture_atomic (env : Env) (v : View) (p : String)
    (hfail : (View.load_texture env v p).fatal.isSome = true) :
    (View.load_texture env v p).view = v := by
  by_cases hc : containsKey v.textures p
  · simp [View.load_texture, hc]
  · have hcf : containsKey v.textures p = false := by simpa using hc
    cases hg : env.get p with
    | none => simp [View.load_texture, hcf, hg]
    | some response =>
      cases hb : env.bytes response with
      | none => simp [View.load_texture, hcf, hg, hb]
      | some bs =>
        cases hm : env.load_from_memory bs with
        | none => simp [View.load_texture, hcf, hg, hb, hm]
        | some img =>
          cases hcr : env.create_texture with
          | none => simp [View.load_texture, View.upload_texture, hcf, hg, hb, hm, hcr]
          | some texture =>
            simp [View.load_texture, View.upload_texture, hcf, hg, hb, hm, hcr] at hfail

/-- An environment in which every collaborator fails. -/
def badLoadEnv : Env :=
  { get := fun _ => none, bytes := fun _ => none,
    load_from_memory := fun _ => none, create_texture := none }

/-- Witness for C9: a failing load (the fetch returns nothing) leaves the
sample view untouched. -/
theorem load_texture_atomic_witness :
    (View.load_texture badLoadEnv sampleView "missing").view = sampleView :=
  load_texture_atomic badLoadEnv sampleView "missing" (by decide)

/-- A cache hit makes `load_texture` return immediately: no GL calls, no
panic, view unchanged. -/
theorem load_texture_hit (env : Env) (w : View) (id : String)
    (h : containsKey w.textures id = true) :
    View.load_texture env w id = { view := w, calls := [], fatal := none } := by
  simp [View.load_texture, h]

/-- C2: loading the same identifier twice performs exactly one GPU upload:
when the identifier is initially uncached and the first call succeeds, the
first call issues exactly one `tex_image_2d` upload, and the second call
(under any environment, so it fetches, decodes and uploads nothing) finds
the identifier in the cache and returns immediately with no GL calls and
the view — cache size and stored handle included — unchanged. -/
theorem load_texture_idempotent (env env2 : Env) (v : View) (id : String)
    (hnc : containsKey v.textures id = false)
    (hok : (View.load_texture env v id).fatal = none) :
    View.load_texture env2 (View.load_texture env v id).view id =
      { view := (View.load_texture env v id).view, calls := [], fatal := none } ∧
    countUploads (View.load_texture env v id).calls = 1 := by
  cases hg : env.get id with
  | none => simp [View.load_texture, hnc, hg] at hok
  | some response =>
    cases hb : env.bytes response with
    | none => simp [View.load_texture, hnc, hg, hb] at hok
    | some bs =>
      cases hm : env.load_from_memory bs with
      | none => simp [View.load_texture, hnc, hg, hb, hm] at hok
      | some img =>
        cases hcr : env.create_texture with
        | none => simp [View.load_texture, View.upload_texture, hnc, hg, hb, hm, hcr] at hok
        | some texture =>
          have hnone : lookupTex v.textures id = none := by
            cases hl : lookupTex v.textures id with
            | none => rfl
            | some t2 =>
              unfold containsKey at hnc
              rw [hl] at hnc
              simp at hnc
          have hcached :
              containsKey (View.load_texture env v id).view.textures id = true := by
            unfold containsKey
            simp only [View.load_texture, View.upload_texture, hnc, hg, hb, hm, hcr,
              Bool.false_eq_true, if_false]
            rw [insertTex_not_cached _ _ _ hnc]
            rw [lookupTex_append_right _ _ _ hnone]
            simp [lookupTex]
          constructor
          · exact load_texture_hit env2 _ id hcached
          · simp only [View.load_texture, View.upload_texture, hnc, hg, hb, hm, hcr,
              Bool.false_eq_true, if_false]
            simp [countUploads]

/-- An environment in which every collaborator succeeds. -/
def goodLoadEnv : Env :=
  { get := fun _ => some 0, bytes := fun _ => some [],
    load_from_memory := fun _ => some { width := 1, height := 1, rgba8 := [0, 0, 0, 0] },
    create_texture := some 1 }

/-- The empty view produced by `View::new(800, 600)`. -/
def freshView : View :=
  { textures := [], width := 800, height := 600,
    window := { innerWidth := 800, innerHeight := 600 } }

/-- Witness for C2: loading `"img1"` twice into a fresh view makes the
second call a no-op and the first call upload exactly once. -/
theorem load_texture_idempotent_witness :
    View.load_texture badLoadEnv (View.load_texture goodLoadEnv freshView "img1").view "img1" =
      { view := (View.load_texture goodLoadEnv freshView "img1").view,
        calls := [], fatal := none } ∧
    countUploads (View.load_texture goodLoadEnv freshView "img1").calls = 1 :=
  load_texture_idempotent goodLoadEnv badLoadEnv freshView "img1" (by decide) (by decide)

/-- The panic message of a failed computation, when it failed. -/
def fatalMsg {α : Type} : Except String α → Option String
  | .error msg => some msg
  | .ok _ => none

/-- C5: every failure in `View::new` (event loop, window, context or
surface unobtainable, `make_current` failing, or a zero dimension) and
every failure in `load_texture` on an uncached identifier (fetch failure,
byte-read failure, decode failure, texture-creation failure) aborts with a
panic message; no failure is recovered, retried or surfaced as a soft
error. -/
theorem create_and_load_fail_fatally (ne : NewEnv) (w h : Nat) (env : Env)
    (v : View) (p : String) :
    ((ne.new_event_loop = false ∨ ne.display_build = false ∨
      ne.window_present = false ∨ ne.raw_window_handle = false ∨
      ne.create_context = false ∨ w = 0 ∨ h = 0 ∨
      ne.create_window_surface = false ∨ ne.make_current = false) →
      (fatalMsg (View.new ne w h)).isSome = true)
  ∧ (containsKey v.textures p = false →
      (env.get p = none ∨ (∀ r, env.bytes r = none) ∨
       (∀ bs, env.load_from_memory bs = none) ∨ env.create_texture = none) →
      (View.load_texture env v p).fatal.isSome = true) := by
  constructor
  · intro hfail
    unfold View.new
    repeat' split
    all_goals simp_all [fatalMsg]
  · intro hnc hfail
    cases hg : env.get p with
    | none => simp [View.load_texture, hnc, hg]
    | some response =>
      cases hb : env.bytes response with
      | none => simp [View.load_texture, hnc, hg, hb]
      | some bs =>
        cases hm : env.load_from_memory bs with
        | none => simp [View.load_texture, hnc, hg, hb, hm]
        | some img =>
          cases hcr : env.create_texture with
          | none =>
            simp [View.load_texture, View.upload_texture, hnc, hg, hb, hm, hcr]
          | some texture =>
            rcases hfail with h1 | h2 | h3 | h4
            · rw [hg] at h1
              exact absurd h1 (by simp)
            · have hx := h2 response
              rw [hb] at hx
              exact absurd hx (by simp)
            · have hx := h3 bs
              rw [hm] at hx
              exact absurd hx (by simp)
            · rw [hcr] at h4
              exact absurd h4 (by simp)

/-- A `View::new` oracle whose event-loop creation fails. -/
def badNewEnv : NewEnv :=
  { new_event_loop := false, display_build := true, window_present := true,
    raw_window_handle := true, create_context := true,
    create_window_surface := true, make_current := true }

/-- Witness for C5: a failing event-loop creation makes `View::new` abort
with a message, and a failing fetch makes `load_texture` abort with a
message. -/
theorem create_and_load_fail_fatally_witness :
    (fatalMsg (View.new badNewEnv 800 600)).isSome = true ∧
    (View.load_texture badLoadEnv sampleView "missing").fatal.isSome = true :=
  ⟨(create_and_load_fail_fatally badNewEnv 800 600 badLoadEnv sampleView "missing").1
      (Or.inl rfl),
   (create_and_load_fail_fatally badNewEnv 800 600 badLoadEnv sampleView "missing").2
      (by decide) (Or.inl rfl)⟩

/-- `load_texture` never issues a clear-related GL call. -/
theorem countClears_load_texture (env : Env) (v : View) (p : String) :
    countClears (View.load_texture env v p).calls = 0 := by
  by_cases hc : containsKey v.textures p
  · simp [View.load_texture, hc, countClears]
  · have hcf : containsKey v.textures p = false := by simpa using hc
    cases hg : env.get p with
    | none => simp [View.load_texture, hcf, hg, countClears]
    | some response =>
      cases hb : env.bytes response with
      | none => simp [View.load_texture, hcf, hg, hb, countClears]
      | some bs =>
        cases hm : env.load_from_memory bs with
        | none => simp [View.load_texture, hcf, hg, hb, hm, countClears]
        | some img =>
          cases hcr : env.create_texture with
          | none =>
            simp [View.load_texture, View.upload_texture, hcf, hg, hb, hm, hcr,
              countClears]
          | some texture =>
            simp [View.load_texture, View.upload_texture, hcf, hg, hb, hm, hcr,
              countClears]

/-- `bind_texture` never issues a clear-related GL call. -/
theorem countClears_bind_texture (v : View) (p : String) :
    countClears (View.bind_texture v p).2 = 0 := by
  cases hl : lookupTex v.textures p with
  | none => simp [View.bind_texture, hl, countClears]
  | some t => simp [View.bind_texture, hl, countClears]

/-- `countClears` is additive over trace concatenation. -/
theorem countClears_append (a b : List GlCall) :
    countClears (a ++ b) = countClears a + countClears b := by
  simp [countClears, List.filter_append]

/-- `setup` never issues a clear-related GL call. -/
theorem countClears_setup (env : Env) (v : View) :
    countClears (setup env v).calls = 0 := by
  unfold setup
  cases hf : (View.load_texture env v creditCard).fatal with
  | some msg =>
    simp only [hf]
    exact countClears_load_texture env v creditCard
  | none =>
    simp only [hf]
    rw [countClears_append, countClears_load_texture, countClears_bind_texture]

/-- The trace of a successful `View::new` contains no clear-related call. -/
theorem countClears_new (ne : NewEnv) (w h : Nat) (view : View)
    (ev : EventLoop) (calls : List GlCall)
    (hok : View.new ne w h = .ok (view, ev, calls)) : countClears calls = 0 := by
  unfold View.new at hok
  repeat' split at hok
  all_goals simp at hok
  obtain ⟨hview, hcalls⟩ := hok
  simp [← hcalls, countClears]

/-- C8 (refuting the claimed drive loop): native `main` defines the
application handler but never starts the event loop, so the complete GL
trace of a successful run contains no `clear_color` or `clear` call at all
— `render_frame` is never invoked and no drive loop iterates. -/
theorem main_renders_no_frame (ne : NewEnv) (env : Env) (v : View)
    (calls : List GlCall) (hok : main ne env = Except.ok (v, calls)) :
    countClears calls = 0 := by
  unfold main at hok
  cases hn : View.new ne 800 600 with
  | error msg => simp [hn] at hok
  | ok x =>
    obtain ⟨view, evloop, calls0⟩ := x
    simp only [hn] at hok
    cases hf : (setup env view).fatal with
    | some msg => simp [hf] at hok
    | none =>
      simp only [hf, Except.ok.injEq, Prod.mk.injEq] at hok
      obtain ⟨hv, hcalls⟩ := hok
      rw [← hcalls, countClears_append, countClears_setup,
        countClears_new ne 800 600 view evloop calls0 hn]

/-- A `View::new` oracle in which every step succeeds. -/
def goodNewEnv : NewEnv :=
  { new_event_loop := true, display_build := true, window_present := true,
    raw_window_handle := true, create_context := true,
    create_window_surface := true, make_current := true }

/-- The view a successful run of native `main` ends with. -/
def mainView : View :=
  match main goodNewEnv goodLoadEnv with
  | .ok (v, _) => v
  | .error _ => freshView

/-- The complete GL trace a successful run of native `main` issues. -/
def mainCalls : List GlCall :=
  match main goodNewEnv goodLoadEnv with
  | .ok (_, calls) => calls
  | .error _ => []

/-- Witness for C8: with all collaborators succeeding, the concrete run of
native `main` issues no clear-related call — no frame is ever rendered. -/
theorem main_renders_no_frame_witness : countClears mainCalls = 0 :=
  main_renders_no_frame goodNewEnv goodLoadEnv mainView mainCalls rfl

end Gasrs
